import Mathlib

set_option maxHeartbeats 1000000
set_option maxRecDepth 10000

/-! Shallow embedding of the disaster-report summarization core of the
    repository (src/src/models/summarizer.py, src/src/models/structured_report.py,
    src/src/models/speech_to_text.py, src/src/pipeline.py).

    Text is modelled as `List Char`.  The external abstractive-summarization
    engine (a HuggingFace pipeline in the source) is an explicit function
    parameter returning `Except`: `Except.error` models a raised exception,
    `Except.ok` a well-formed response.  Every generation operation returns,
    next to its result, the list of requests it issued to the engine, so that
    call-trace properties (which passes run, with which bounds) are provable. -/

/-- Python `str.strip()`: drop leading and trailing whitespace. -/
def pyStrip (s : List Char) : List Char :=
  ((s.dropWhile Char.isWhitespace).reverse.dropWhile Char.isWhitespace).reverse

/-- Python `str.rstrip('.')`: drop trailing dots (used on the generated title). -/
def rstripDots (s : List Char) : List Char :=
  (s.reverse.dropWhile (fun c => c == '.')).reverse

/-- Python `str.lower()`. -/
def lower (s : List Char) : List Char :=
  s.map Char.toLower

/-- Python `str.startswith`. -/
def startsWith : List Char → List Char → Bool
  | [], _ => true
  | _ :: _, [] => false
  | p :: ps, c :: cs => p == c && startsWith ps cs

/-- Python `pat in s` (substring containment). -/
def containsSub (pat : List Char) : List Char → Bool
  | [] => pat.isEmpty
  | c :: rest => startsWith pat (c :: rest) || containsSub pat rest

/-- Number of (possibly overlapping) occurrences of `pat` as a substring. -/
def countOcc (pat : List Char) : List Char → Nat
  | [] => 0
  | c :: rest => (if startsWith pat (c :: rest) then 1 else 0) + countOcc pat rest

/-- Python `str.replace(pat, rep, 1)`: replace the leftmost occurrence only. -/
def replaceFirst (pat rep : List Char) : List Char → List Char
  | [] => []
  | c :: rest =>
    if startsWith pat (c :: rest) then rep ++ (c :: rest).drop pat.length
    else c :: replaceFirst pat rep rest

/-- The patterns all occur in `s`, in the given order. -/
def containsInOrder : List (List Char) → List Char → Prop
  | [], _ => True
  | p :: ps, s => ∃ x y, s = x ++ p ++ y ∧ containsInOrder ps y

/-- AudienceRole (summarizer.py lines 24-35). -/
inductive AudienceRole where
  | general_public
  | emergency_responders
  | authorities
deriving DecidableEq

/-- The `Literal["high", "medium", "low"]` abstraction level of `generate_summary`. -/
inductive AbstractionLevel where
  | high
  | medium
  | low
deriving DecidableEq

/-- One call to the external summarization engine:
    `self.summarizer(input_text, max_length=…, min_length=…, do_sample=…)`. -/
structure GenRequest where
  input_text : List Char
  max_length : Nat
  min_length : Nat
  do_sample : Bool
deriving DecidableEq

/-- The external abstractive-summarization capability.  `Except.error msg`
    models an exception with message `msg`; `Except.ok s` models
    `result[0]["summary_text"] = s`. -/
abbrev Engine := GenRequest → Except (List Char) (List Char)

/-- Audience guidance sentence (summarizer.py lines 127-146). -/
def audience_guidance : AudienceRole → List Char
  | AudienceRole.general_public =>
    ("AUDIENCE: GENERAL PUBLIC. TASK: Write a simple, non-technical, easy-to-understand summary that explains what happened and basic safety implications.").data
  | AudienceRole.emergency_responders =>
    ("AUDIENCE: EMERGENCY RESPONDERS. TASK: Write an operational situation summary focusing on affected areas, current conditions, access constraints, and information useful for field coordination.").data
  | AudienceRole.authorities =>
    ("AUDIENCE: GOVERNMENT AUTHORITIES. TASK: Write a strategic overview focusing on overall impact, key figures, priorities, and coordination needs for decision-makers.").data

/-- Abstraction-level guidance sentence (summarizer.py lines 148-163). -/
def abstraction_guidance : AbstractionLevel → List Char
  | AbstractionLevel.high =>
    ("ABSTRACTION LEVEL: HIGH. Focus on only the most critical points, avoid technical details, and keep the summary very short.").data
  | AbstractionLevel.medium =>
    ("ABSTRACTION LEVEL: MEDIUM. Balance brevity with operationally useful details while keeping the text readable.").data
  | AbstractionLevel.low =>
    ("ABSTRACTION LEVEL: LOW. Include key figures, concrete impacts, and nuanced context while remaining concise.").data

/-- The prompt string sent to the engine (summarizer.py lines 108-172):
    truncate to `1024 * 4` characters, then optionally prepend the
    space-joined guidance block and the separator. -/
def build_input_text (text : List Char) (audience_role : Option AudienceRole)
    (abstraction_level : Option AbstractionLevel) : List Char :=
  let base_text := text.take (1024 * 4)
  if audience_role.isSome || abstraction_level.isSome then
    let guidance_parts :=
      (audience_role.map audience_guidance).toList ++
      (abstraction_level.map abstraction_guidance).toList
    let guidance := pyStrip (List.intercalate (" ").data guidance_parts)
    if guidance ≠ [] then guidance ++ ("\n\nDisaster report:\n").data ++ base_text
    else base_text
  else base_text

/-- The engine request issued by one `generate_summary` call. -/
def summaryRequest (text : List Char) (mx mn : Nat) (ds : Bool)
    (r : Option AudienceRole) (l : Option AbstractionLevel) : GenRequest :=
  ⟨build_input_text text r l, mx, mn, ds⟩

/-- Sentinel returned on empty or whitespace-only input (summarizer.py line 106). -/
def no_text_sentinel : List Char :=
  ("No text provided for summarization.").data

/-- DisasterSummarizer.generate_summary (summarizer.py lines 76-189).
    Returns the summary string together with the list of engine requests
    issued (empty on the degenerate-input path).  Any engine exception is
    caught and converted into a descriptive error string. -/
def generate_summary (engine : Engine) (text : List Char) (max_length min_length : Nat)
    (do_sample : Bool) (audience_role : Option AudienceRole)
    (abstraction_level : Option AbstractionLevel) : List Char × List GenRequest :=
  if text = [] ∨ (pyStrip text).length = 0 then
    (no_text_sentinel, [])
  else
    match engine (summaryRequest text max_length min_length do_sample audience_role abstraction_level) with
    | Except.ok result =>
      (pyStrip result,
       [summaryRequest text max_length min_length do_sample audience_role abstraction_level])
    | Except.error e =>
      (("Error generating summary: ").data ++ e,
       [summaryRequest text max_length min_length do_sample audience_role abstraction_level])

/-- DisasterSummarizer.generate_all_summaries (summarizer.py lines 191-253):
    the fixed three-pass plan alert / operational / strategic. -/
def generate_all_summaries (engine : Engine) (text : List Char) :
    (List Char × List Char × List Char) × List GenRequest :=
  let alert := generate_summary engine text 20 8 false
    (some AudienceRole.general_public) (some AbstractionLevel.high)
  let short := generate_summary engine text 60 25 false
    (some AudienceRole.emergency_responders) (some AbstractionLevel.medium)
  let detailed := generate_summary engine text 150 60 false
    (some AudienceRole.authorities) (some AbstractionLevel.low)
  ((alert.1, short.1, detailed.1), alert.2 ++ short.2 ++ detailed.2)

/-- Association-list model of the Python `sections` dict; keys are section names. -/
abbrev SectionDict := List (List Char × List Char)

/-- Python `d[k]` (lookup; the embedding returns `[]` for a missing key,
    which never happens on the paths modelled here). -/
def dget (d : SectionDict) (k : List Char) : List Char :=
  match d.find? (fun p => p.1 == k) with
  | some p => p.2
  | none => []

/-- Python `d[k] = v` on a dict: replace the value when the key is present,
    append the binding when it is absent. -/
def dset (d : SectionDict) (k v : List Char) : SectionDict :=
  if d.any (fun p => p.1 == k) then
    d.map (fun p => if p.1 == k then (k, v) else p)
  else d ++ [(k, v)]

/-- The key set of a dict, in insertion order. -/
def dkeys (d : SectionDict) : List (List Char) :=
  d.map (fun p => p.1)

/-- Section keys used by the structured-report generator. -/
def kTitle : List Char := ("title").data

def kIntroduction : List Char := ("introduction").data

def kDetails : List Char := ("details").data

def kImpact : List Char := ("impact").data

def kResponse : List Char := ("response").data

def kAftermath : List Char := ("aftermath").data

/-- Keyword lists of _detect_disaster_type (structured_report.py lines 93-104). -/
def earthquake_keywords : List (List Char) :=
  [("earthquake").data, ("seismic").data, ("tremor").data, ("richter").data]

def flood_keywords : List (List Char) :=
  [("flood").data, ("flooding").data, ("inundation").data, ("water").data]

def cyclone_keywords : List (List Char) :=
  [("cyclone").data, ("hurricane").data, ("typhoon").data, ("storm").data]

def wildfire_keywords : List (List Char) :=
  [("wildfire").data, ("fire").data, ("blaze").data, ("burning").data]

def tsunami_keywords : List (List Char) :=
  [("tsunami").data, ("tidal wave").data]

def drought_keywords : List (List Char) :=
  [("drought").data, ("dry").data, ("water shortage").data]

/-- StructuredReportGenerator._detect_disaster_type (structured_report.py
    lines 81-106): ordered keyword matching over the lower-cased text,
    first matching category wins. -/
def _detect_disaster_type (text : List Char) : List Char :=
  let text_lower := lower text
  if earthquake_keywords.any (fun w => containsSub w text_lower) then ("earthquake").data
  else if flood_keywords.any (fun w => containsSub w text_lower) then ("flood").data
  else if cyclone_keywords.any (fun w => containsSub w text_lower) then ("cyclone").data
  else if wildfire_keywords.any (fun w => containsSub w text_lower) then ("wildfire").data
  else if tsunami_keywords.any (fun w => containsSub w text_lower) then ("tsunami").data
  else if drought_keywords.any (fun w => containsSub w text_lower) then ("drought").data
  else ("disaster").data

/-- Title prompt (structured_report.py line 127). -/
def title_prompt (text : List Char) : List Char :=
  ("Create a concise, professional title for this ").data ++ _detect_disaster_type text ++
  (" disaster report: ").data ++ text.take 200

/-- Introduction prompt (structured_report.py line 137). -/
def intro_prompt (text : List Char) : List Char :=
  ("Question: What type of disaster, when did it occur, and where? Answer ONLY these three questions in 2-3 sentences. Do not describe how it happened or its impact. Text: ").data ++ text

/-- Details prompt (structured_report.py line 146). -/
def details_prompt (text : List Char) : List Char :=
  ("Question: How did this disaster develop and progress? Describe the sequence, intensity changes, weather conditions, and physical processes. Do NOT mention what/when/where or casualties. Text: ").data ++ text

/-- Impact prompt (structured_report.py line 152). -/
def impact_prompt (text : List Char) : List Char :=
  ("Question: What are the human casualties, injuries, deaths, displaced people, and damage to buildings and infrastructure? Extract ONLY numbers and damage facts. Use 'according to reports' or 'preliminary estimates'. If no numbers, say 'assessment ongoing'. Do NOT describe the disaster event. Text: ").data ++ text

/-- Response prompt (structured_report.py line 158). -/
def response_prompt (text : List Char) : List Char :=
  ("Question: What rescue operations, emergency services, government actions, relief efforts, and aid were deployed? Extract ONLY response actions. Do NOT describe the disaster or impact. Text: ").data ++ text

/-- Aftermath prompt (structured_report.py line 164). -/
def aftermath_prompt (text : List Char) : List Char :=
  ("Question: What are the ongoing risks, recovery challenges, and lessons about preparedness or early warning systems? Focus on future implications. If not mentioned, briefly note recovery will be challenging. Do NOT repeat disaster or response details. Text: ").data ++ text

/-- Generated title: `generate_summary(title_prompt, max_length=15, min_length=5)`,
    then `.strip().rstrip('.')` (structured_report.py lines 128-129). -/
def title_text (engine : Engine) (text : List Char) : List Char :=
  rstripDots (pyStrip (generate_summary engine (title_prompt text) 15 5 false none none).1)

/-- Generated introduction section, including the `'A powerful'` cleanup
    (structured_report.py lines 138-141). -/
def intro_section (engine : Engine) (text : List Char) : List Char :=
  let s := (generate_summary engine (intro_prompt text) 80 30 false none none).1
  if startsWith ("a powerful").data (lower s) then
    replaceFirst ("A powerful").data ("The disaster").data s
  else s

/-- The five-key `sections` dict right before the diversity-repair pass
    (structured_report.py lines 133-166). -/
def raw_sections (engine : Engine) (text : List Char) : SectionDict :=
  [(kIntroduction, intro_section engine text),
   (kDetails, (generate_summary engine (details_prompt text) 100 40 false none none).1),
   (kImpact, (generate_summary engine (impact_prompt text) 100 40 false none none).1),
   (kResponse, (generate_summary engine (response_prompt text) 80 30 false none none).1),
   (kAftermath, (generate_summary engine (aftermath_prompt text) 80 30 false none none).1)]

/-- Casualty/damage vocabulary checked by the diversity-repair pass
    (structured_report.py line 226). -/
def impact_vocabulary : List (List Char) :=
  [("casualties").data, ("injured").data, ("damage").data, ("destroyed").data, ("evacuated").data]

/-- StructuredReportGenerator._ensure_section_diversity (structured_report.py
    lines 195-232).  The three 50-character prefixes are computed up front;
    `details` may be prefixed with a progression clause, `impact` may have its
    leading clause rewritten; nothing else is touched and no engine call is made. -/
def _ensure_section_diversity (sections : SectionDict) : SectionDict :=
  let intro_start := pyStrip (lower ((dget sections kIntroduction).take 50))
  let details_start := pyStrip (lower ((dget sections kDetails).take 50))
  let impact_start := pyStrip (lower ((dget sections kImpact).take 50))
  let sections1 :=
    if intro_start = details_start ∧ 20 < intro_start.length then
      if containsSub ("how").data (lower (dget sections kDetails)) ||
         containsSub ("developed").data (lower (dget sections kDetails)) then
        sections
      else
        dset sections kDetails
          (("The disaster progressed as follows: ").data ++ dget sections kDetails)
    else sections
  if impact_start = intro_start ∨ impact_start = details_start then
    let impact_lower := lower (dget sections1 kImpact)
    if impact_vocabulary.any (fun w => containsSub w impact_lower) then
      if startsWith ("A powerful").data (dget sections1 kImpact) ||
         startsWith ("The disaster").data (dget sections1 kImpact) then
        let s2 := dset sections1 kImpact
          (replaceFirst ("A powerful").data ("According to initial reports,").data
            (dget sections1 kImpact))
        dset s2 kImpact
          (replaceFirst ("The disaster").data ("Initial assessments indicate").data
            (dget s2 kImpact))
      else sections1
    else sections1
  else sections1

/-- The six fixed section headers of the assembled document. -/
def hdr_title : List Char := ("**TITLE & BYLINE**").data

def hdr_intro : List Char := ("**INTRODUCTION (What, When, Where)**").data

def hdr_details : List Char := ("**DETAILS OF THE EVENT (How)**").data

def hdr_impact : List Char := ("**IMPACT & DAMAGE (Figures & Facts)**").data

def hdr_response : List Char := ("**RESPONSE & RELIEF EFFORTS**").data

def hdr_aftermath : List Char := ("**AFTERMATH & LESSONS LEARNED**").data

/-- The fixed byline text preceding the date. -/
def byline_lead : List Char :=
  ("Disaster Assessment Report | Generated on ").data

/-- The document template (the f-string of structured_report.py lines 172-189). -/
def assemble_report (title current_date intro details impact response aftermath : List Char) :
    List Char :=
  ("**TITLE & BYLINE**\n").data ++ title ++
  ("\nDisaster Assessment Report | Generated on ").data ++ current_date ++
  ("\n\n**INTRODUCTION (What, When, Where)**\n").data ++ intro ++
  ("\n\n**DETAILS OF THE EVENT (How)**\n").data ++ details ++
  ("\n\n**IMPACT & DAMAGE (Figures & Facts)**\n").data ++ impact ++
  ("\n\n**RESPONSE & RELIEF EFFORTS**\n").data ++ response ++
  ("\n\n**AFTERMATH & LESSONS LEARNED**\n").data ++ aftermath

/-- StructuredReportGenerator.generate_structured_report (structured_report.py
    lines 108-193).  `current_date` stands for `datetime.now().strftime(...)`,
    an ambient input of the formatting step.  Returns the document string and
    the six engine requests issued, in order. -/
def generate_structured_report (engine : Engine) (text current_date : List Char) :
    List Char × List GenRequest :=
  let sections := _ensure_section_diversity (raw_sections engine text)
  (assemble_report (title_text engine text) current_date
    (dget sections kIntroduction) (dget sections kDetails) (dget sections kImpact)
    (dget sections kResponse) (dget sections kAftermath),
   (generate_summary engine (title_prompt text) 15 5 false none none).2 ++
   (generate_summary engine (intro_prompt text) 80 30 false none none).2 ++
   (generate_summary engine (details_prompt text) 100 40 false none none).2 ++
   (generate_summary engine (impact_prompt text) 100 40 false none none).2 ++
   (generate_summary engine (response_prompt text) 80 30 false none none).2 ++
   (generate_summary engine (aftermath_prompt text) 80 30 false none none).2)

/-- StructuredReportGenerator.generate_all_summaries_with_structured_report
    (structured_report.py lines 301-324): run the full three-pass
    generate_all_summaries, keep alert and short, discard the strategic
    output, then generate the structured document. -/
def generate_all_summaries_with_structured_report (engine : Engine)
    (text current_date : List Char) :
    (List Char × List Char × List Char) × List GenRequest :=
  let r := generate_all_summaries engine text
  let sr := generate_structured_report engine text current_date
  ((r.1.1, r.1.2.1, sr.1), r.2 ++ sr.2)

/-- Python exception taxonomy relevant to the transcription boundary:
    `FileNotFoundError`, `ValueError`, and any other `Exception`. -/
inductive PyError where
  | fileNotFound : List Char → PyError
  | valueError : List Char → PyError
  | generic : List Char → PyError
deriving DecidableEq

/-- `str(e)` of an exception. -/
def pyErrorMessage : PyError → List Char
  | PyError.fileNotFound m => m
  | PyError.valueError m => m
  | PyError.generic m => m

/-- The remediation message raised when FFmpeg is missing
    (speech_to_text.py lines 66-72 and 81-87). -/
def ffmpeg_install_msg : List Char :=
  ("FFmpeg is not installed or not in PATH. Please install FFmpeg:\n- Windows: Download from https://ffmpeg.org/download.html or use 'choco install ffmpeg'\n- Linux: 'sudo apt-get install ffmpeg'\n- macOS: 'brew install ffmpeg'").data

/-- The Whisper backend: `self.model.transcribe(audio_path, language=…)`.
    `Except.error` models a raised exception. -/
abbrev WhisperBackend := List Char → Option (List Char) → Except PyError (List Char)

/-- SpeechToText.transcribe_audio (speech_to_text.py lines 32-88).
    `fs` models `os.path.exists`.  FFmpeg-related failures are converted to a
    typed `FileNotFoundError` carrying the remediation message; every other
    exception is re-raised unchanged. -/
def transcribe_audio (fs : List Char → Bool) (backend : WhisperBackend)
    (audio_path : List Char) (language : Option (List Char)) :
    Except PyError (List Char) :=
  if fs audio_path = false then
    Except.error (PyError.fileNotFound (("Audio file not found: ").data ++ audio_path))
  else
    match backend audio_path language with
    | Except.ok result => Except.ok (pyStrip result)
    | Except.error (PyError.fileNotFound e) =>
      if containsSub ("ffmpeg").data (lower e) ||
         containsSub ("The system cannot find the file specified").data e then
        Except.error (PyError.fileNotFound ffmpeg_install_msg)
      else
        Except.error (PyError.fileNotFound e)
    | Except.error err =>
      let error_msg := lower (pyErrorMessage err)
      if containsSub ("ffmpeg").data error_msg ||
         containsSub ("cannot find the file").data error_msg then
        Except.error (PyError.fileNotFound ffmpeg_install_msg)
      else
        Except.error err

/-- VoiceToSummaryPipeline.process_audio_file (pipeline.py lines 53-85):
    transcription failures propagate, an empty transcription raises
    `ValueError`, and then the three summaries are generated (never raising). -/
def process_audio_file (fs : List Char → Bool) (backend : WhisperBackend)
    (engine : Engine) (audio_path : List Char) (language : Option (List Char)) :
    Except PyError (List Char × List Char × List Char × List Char) :=
  match transcribe_audio fs backend audio_path language with
  | Except.error e => Except.error e
  | Except.ok transcribed_text =>
    if transcribed_text = [] ∨ (pyStrip transcribed_text).length = 0 then
      Except.error (PyError.valueError (("No text was transcribed from the audio file.").data))
    else
      let r := generate_all_summaries engine transcribed_text
      Except.ok (transcribed_text, r.1.1, r.1.2.1, r.1.2.2)

/-- An engine whose responses never contain the reserved `'*'` markup
    character: the section headers of the assembled document are the only
    source of `'*'`.  Used to state the header-uniqueness property. -/
def engineStarFree (engine : Engine) : Prop :=
  ∀ req, (∀ s, engine req = Except.ok s → ('*') ∉ s) ∧
         (∀ e, engine req = Except.error e → ('*') ∉ e)

/-- Fixture: an engine that always answers with a fixed summary. -/
def okEngine : Engine :=
  fun _ => Except.ok (("A short factual summary of the event.").data)

/-- Fixture: an engine that always raises. -/
def errEngine : Engine :=
  fun _ => Except.error (("boom").data)

/-- Fixture: sample date string for the byline. -/
def sampleDate : List Char := ("May 01, 2025").data

/-- Fixture: a Whisper backend failing with a generic (non-FFmpeg) error. -/
def cudaFailBackend : WhisperBackend :=
  fun _ _ => Except.error (PyError.generic (("CUDA out of memory").data))

/-- Fixture: a Whisper backend failing because the FFmpeg tool is missing. -/
def ffmpegFailBackend : WhisperBackend :=
  fun _ _ => Except.error (PyError.fileNotFound (("No such file or directory: ffmpeg").data))

/-- Fixture: a file system on which every path exists. -/
def allFS : List Char → Bool := fun _ => true

/-- Fixture: a six-key sections mapping. -/
def sample_sections : SectionDict :=
  [(kTitle, ("Quake Report").data),
   (kIntroduction, ("An earthquake struck the city early on Monday.").data),
   (kDetails, ("Tremors intensified over several minutes.").data),
   (kImpact, ("According to reports, 50 people were injured.").data),
   (kResponse, ("Rescue teams were deployed within the hour.").data),
   (kAftermath, ("Recovery efforts are expected to take months.").data)]

/-- Fixture: a sections mapping whose introduction and details share a short
    (5-character) identical prefix, below the 21-character repair threshold. -/
def c5_sections : SectionDict :=
  [(kIntroduction, ("flood").data),
   (kDetails, ("flood").data),
   (kImpact, ("impact unassessed").data),
   (kResponse, ("teams deployed").data),
   (kAftermath, ("recovery ongoing").data)]

/-- Fixture: a sections mapping with long colliding prefixes, no
    how/developed vocabulary in details, and an impact section that collides,
    carries damage vocabulary, and starts with 'A powerful'. -/
def c5_sections_repair : SectionDict :=
  [(kIntroduction, ("A powerful earthquake struck the northern region today").data),
   (kDetails, ("A powerful earthquake struck the northern region today").data),
   (kImpact,
    ("A powerful earthquake struck the northern region today causing damage").data),
   (kResponse, ("teams deployed").data),
   (kAftermath, ("recovery ongoing").data)]

/-- Fixture: a sections mapping whose impact collides with the introduction,
    carries damage vocabulary, and starts with 'The disaster'. -/
def c5_sections_td : SectionDict :=
  [(kIntroduction, ("The disaster struck the northern region early today").data),
   (kDetails, ("Tremors intensified over several minutes.").data),
   (kImpact,
    ("The disaster struck the northern region early today with damage").data),
   (kResponse, ("teams deployed").data),
   (kAftermath, ("recovery ongoing").data)]

/-! Helper lemmas about the string primitives. -/

theorem mem_pyStrip {c : Char} {s : List Char} (h : c ∈ pyStrip s) : c ∈ s := by
  unfold pyStrip at h
  rw [List.mem_reverse] at h
  have h1 := (List.dropWhile_sublist _).subset h
  rw [List.mem_reverse] at h1
  exact (List.dropWhile_sublist _).subset h1

theorem mem_rstripDots {c : Char} {s : List Char} (h : c ∈ rstripDots s) : c ∈ s := by
  unfold rstripDots at h
  rw [List.mem_reverse] at h
  have h1 := (List.dropWhile_sublist _).subset h
  rwa [List.mem_reverse] at h1

theorem mem_of_startsWith {p s : List Char} (h : startsWith p s = true)
    {c : Char} (hc : c ∈ p) : c ∈ s := by
  induction p generalizing s with
  | nil => cases hc
  | cons x xs ih =>
    cases s with
    | nil => simp [startsWith] at h
    | cons y ys =>
      simp only [startsWith, Bool.and_eq_true, beq_iff_eq] at h
      rcases List.mem_cons.mp hc with rfl | hc
      · rw [h.1]; exact List.mem_cons_self _ _
      · exact List.mem_cons_of_mem _ (ih h.2 hc)

theorem startsWith_append_cons (c : Char) (b : List Char) :
    ∀ (pat a : List Char), c ∉ pat → startsWith pat (a ++ c :: b) = startsWith pat a
  | [], _, _ => rfl
  | p :: ps, [], hc => by
    have hpc : p ≠ c := fun h => hc (by simp [h])
    simp [startsWith, hpc]
  | p :: ps, x :: a', hc => by
    have hc' : c ∉ ps := fun h => hc (List.mem_cons_of_mem _ h)
    simp only [List.cons_append, startsWith, List.append_eq]
    rw [startsWith_append_cons c b ps a' hc']

theorem countOcc_append_cons {pat : List Char} (hne : pat ≠ []) {c : Char} (hc : c ∉ pat)
    (a b : List Char) : countOcc pat (a ++ c :: b) = countOcc pat a + countOcc pat b := by
  induction a with
  | nil =>
    have hsw : startsWith pat (c :: b) = false := by
      have h := startsWith_append_cons c b pat [] hc
      simp only [List.nil_append] at h
      cases pat with
      | nil => exact absurd rfl hne
      | cons p ps => simpa [startsWith] using h
    simp [countOcc, hsw]
  | cons x a' ih =>
    have h := startsWith_append_cons c b pat (x :: a') hc
    simp only [List.cons_append] at h ⊢
    simp only [countOcc, ih, h]
    omega

theorem countOcc_cons {pat : List Char} (hne : pat ≠ []) {c : Char} (hc : c ∉ pat)
    (b : List Char) : countOcc pat (c :: b) = countOcc pat b := by
  have h := countOcc_append_cons hne hc [] b
  simpa [countOcc] using h

theorem countOcc_eq_zero {pat s : List Char} {x : Char} (hx : x ∈ pat) (hs : x ∉ s) :
    countOcc pat s = 0 := by
  induction s with
  | nil => rfl
  | cons c rest ih =>
    have h1 : x ∉ rest := fun h => hs (List.mem_cons_of_mem _ h)
    rcases hsw : startsWith pat (c :: rest) with _ | _
    · simp [countOcc, hsw, ih h1]
    · exact absurd (mem_of_startsWith hsw hx) hs

theorem startsWith_iff {p s : List Char} : startsWith p s = true ↔ ∃ t, s = p ++ t := by
  induction p generalizing s with
  | nil => simp [startsWith]
  | cons x xs ih =>
    cases s with
    | nil => simp [startsWith]
    | cons y ys =>
      simp only [startsWith, Bool.and_eq_true, beq_iff_eq, ih, List.cons_append]
      constructor
      · rintro ⟨rfl, t, rfl⟩; exact ⟨t, rfl⟩
      · rintro ⟨t, h⟩
        injection h with h1 h2
        exact ⟨h1.symm, t, h2⟩

theorem startsWith_append_self (p x : List Char) : startsWith p (p ++ x) = true :=
  startsWith_iff.mpr ⟨x, rfl⟩

theorem replaceFirst_of_startsWith {pat rep s : List Char} (hne : pat ≠ [])
    (h : startsWith pat s = true) : replaceFirst pat rep s = rep ++ s.drop pat.length := by
  cases s with
  | nil =>
    rcases startsWith_iff.mp h with ⟨t, ht⟩
    cases pat with
    | nil => exact absurd rfl hne
    | cons p ps => simp at ht
  | cons c rest => simp [replaceFirst, h]

theorem replaceFirst_append_of_head_notMem {p : Char} {ps rep : List Char} (a b : List Char)
    (ha : p ∉ a) : replaceFirst (p :: ps) rep (a ++ b) = a ++ replaceFirst (p :: ps) rep b := by
  induction a with
  | nil => rfl
  | cons x a' ih =>
    have hx : p ≠ x := fun h => ha (by simp [h])
    have hsw : startsWith (p :: ps) (x :: (a' ++ b)) = false := by
      simp [startsWith, hx]
    have ha' : p ∉ a' := fun h => ha (List.mem_cons_of_mem _ h)
    simp [replaceFirst, hsw, ih ha']

theorem mem_replaceFirst {c : Char} {pat rep s : List Char}
    (h : c ∈ replaceFirst pat rep s) : c ∈ s ∨ c ∈ rep := by
  induction s with
  | nil => simp [replaceFirst] at h
  | cons x rest ih =>
    by_cases hsw : startsWith pat (x :: rest) = true
    · simp only [replaceFirst, if_pos hsw] at h
      rcases List.mem_append.mp h with h | h
      · exact Or.inr h
      · exact Or.inl (List.mem_of_mem_drop h)
    · simp only [replaceFirst, if_neg hsw] at h
      rcases List.mem_cons.mp h with rfl | h
      · exact Or.inl (List.mem_cons_self _ _)
      · rcases ih h with h | h
        · exact Or.inl (List.mem_cons_of_mem _ h)
        · exact Or.inr h

theorem dropWhile_append_singleton_ne_nil {q : Char → Bool} {c : Char} (hq : ¬ q c = true) :
    ∀ l : List Char, List.dropWhile q (l ++ [c]) ≠ []
  | [] => by simp [List.dropWhile_cons, hq]
  | x :: l => by
    by_cases hx : q x = true
    · simpa [List.dropWhile_cons, hx] using dropWhile_append_singleton_ne_nil hq l
    · simp [List.dropWhile_cons, hx]

theorem pyStrip_cons_ne_nil {c : Char} (hc : ¬ c.isWhitespace = true) (t : List Char) :
    pyStrip (c :: t) ≠ [] := by
  unfold pyStrip
  rw [List.dropWhile_cons, if_neg hc, List.reverse_cons]
  intro h
  rw [List.reverse_eq_nil_iff] at h
  exact dropWhile_append_singleton_ne_nil hc _ h

/-! Lemmas about the engine adapter. -/

theorem generate_summary_trace (engine : Engine) {t : List Char} (mx mn : Nat) (ds : Bool)
    (r : Option AudienceRole) (l : Option AbstractionLevel) (h : pyStrip t ≠ []) :
    (generate_summary engine t mx mn ds r l).2 = [summaryRequest t mx mn ds r l] := by
  have hcond : ¬ (t = [] ∨ (pyStrip t).length = 0) := by
    rintro (rfl | hl)
    · exact h rfl
    · exact h (List.length_eq_zero.mp hl)
  unfold generate_summary
  rw [if_neg hcond]
  rcases hE : engine (summaryRequest t mx mn ds r l) with e | s <;> rfl

theorem bounds_of_mem_trace {p : GenRequest} {engine : Engine} {t : List Char}
    {mx mn : Nat} {ds : Bool} {r : Option AudienceRole} {l : Option AbstractionLevel}
    (h : p ∈ (generate_summary engine t mx mn ds r l).2) :
    p.min_length = mn ∧ p.max_length = mx ∧ p.do_sample = ds := by
  unfold generate_summary at h
  by_cases hc : t = [] ∨ (pyStrip t).length = 0
  · rw [if_pos hc] at h
    simp at h
  · rw [if_neg hc] at h
    rcases hE : engine (summaryRequest t mx mn ds r l) with e | s <;> rw [hE] at h <;>
      simp at h <;> subst h <;> exact ⟨rfl, rfl, rfl⟩

theorem generate_summary_congr {e₁ e₂ : Engine}
    (h : ∀ req, req.do_sample = false → e₁ req = e₂ req)
    (t : List Char) (mx mn : Nat) (r : Option AudienceRole) (l : Option AbstractionLevel) :
    generate_summary e₁ t mx mn false r l = generate_summary e₂ t mx mn false r l := by
  unfold generate_summary
  rw [h (summaryRequest t mx mn false r l) rfl]

theorem starFree_generate_summary {engine : Engine} (hE : engineStarFree engine)
    (t : List Char) (mx mn : Nat) (ds : Bool) (r : Option AudienceRole)
    (l : Option AbstractionLevel) : ('*') ∉ (generate_summary engine t mx mn ds r l).1 := by
  unfold generate_summary
  by_cases hc : t = [] ∨ (pyStrip t).length = 0
  · rw [if_pos hc]
    decide
  · rw [if_neg hc]
    rcases hE2 : engine (summaryRequest t mx mn ds r l) with e | s <;> intro hmem
    · rcases List.mem_append.mp hmem with hm | hm
      · revert hm; decide
      · exact (hE (summaryRequest t mx mn ds r l)).2 e hE2 hm
    · exact (hE (summaryRequest t mx mn ds r l)).1 s hE2 (mem_pyStrip hmem)

/-- C1: any exception raised by the summarization engine during
    `generate_summary` is caught at the adapter boundary: instead of
    propagating, the adapter returns the descriptive string
    `"Error generating summary: " ++ msg` (summarizer.py lines 187-189);
    the embedding is a total function, so no failure escapes. -/
theorem C1_engine_failure_not_propagated (engine : Engine) (text : List Char)
    (mx mn : Nat) (ds : Bool) (r : Option AudienceRole) (l : Option AbstractionLevel)
    (msg : List Char) (hne : ¬ (text = [] ∨ (pyStrip text).length = 0))
    (hfail : engine (summaryRequest text mx mn ds r l) = Except.error msg) :
    generate_summary engine text mx mn ds r l =
      (("Error generating summary: ").data ++ msg, [summaryRequest text mx mn ds r l]) := by
  unfold generate_summary
  rw [if_neg hne, hfail]

/-- Witness for C1 at a concrete failing engine and input. -/
theorem C1_engine_failure_not_propagated_witness :
    generate_summary errEngine (("hi").data) 100 30 false none none =
      (("Error generating summary: ").data ++ ("boom").data,
       [summaryRequest (("hi").data) 100 30 false none none]) :=
  C1_engine_failure_not_propagated errEngine (("hi").data) 100 30 false none none
    (("boom").data) (by decide) rfl

/-- C7: empty or whitespace-only input short-circuits to the fixed sentinel
    without any engine request, so `generate_all_summaries ""` returns three
    non-empty sentinel strings and issues no engine call (summarizer.py
    lines 105-106 and 191-253). -/
theorem C7_empty_input_sentinel (engine : Engine) (text : List Char)
    (mx mn : Nat) (ds : Bool) (r : Option AudienceRole) (l : Option AbstractionLevel)
    (h : pyStrip text = []) :
    generate_summary engine text mx mn ds r l = (no_text_sentinel, []) ∧
    generate_all_summaries engine [] =
      ((no_text_sentinel, no_text_sentinel, no_text_sentinel), []) ∧
    no_text_sentinel ≠ [] := by
  refine ⟨?_, rfl, by decide⟩
  unfold generate_summary
  rw [if_pos (Or.inr (by rw [h]; rfl))]

/-- Witness for C7 at a whitespace-only input. -/
theorem C7_empty_input_sentinel_witness :
    generate_summary okEngine (("  ").data) 100 30 false none none = (no_text_sentinel, []) ∧
    generate_all_summaries okEngine [] =
      ((no_text_sentinel, no_text_sentinel, no_text_sentinel), []) ∧
    no_text_sentinel ≠ [] :=
  C7_empty_input_sentinel okEngine (("  ").data) 100 30 false none none (by decide)

/-- C6: disaster-type detection is ordered keyword matching with the fixed
    priority earthquake → flood → … → fallback "disaster"; in particular any
    earthquake keyword wins over everything else, so a text with both
    earthquake and flood keywords is classified "earthquake"
    (structured_report.py lines 81-106). -/
theorem C6_disaster_type_priority (text : List Char) :
    (earthquake_keywords.any (fun w => containsSub w (lower text)) = true →
      _detect_disaster_type text = ("earthquake").data)
  ∧ (earthquake_keywords.any (fun w => containsSub w (lower text)) = false →
      flood_keywords.any (fun w => containsSub w (lower text)) = true →
      _detect_disaster_type text = ("flood").data)
  ∧ (earthquake_keywords.any (fun w => containsSub w (lower text)) = false →
      flood_keywords.any (fun w => containsSub w (lower text)) = false →
      cyclone_keywords.any (fun w => containsSub w (lower text)) = false →
      wildfire_keywords.any (fun w => containsSub w (lower text)) = false →
      tsunami_keywords.any (fun w => containsSub w (lower text)) = false →
      drought_keywords.any (fun w => containsSub w (lower text)) = false →
      _detect_disaster_type text = ("disaster").data) := by
  refine ⟨fun h1 => ?_, fun h1 h2 => ?_, fun h1 h2 h3 h4 h5 h6 => ?_⟩ <;>
    unfold _detect_disaster_type <;> simp [*]

/-- Witness for C6: a text containing both an earthquake and a flood keyword
    is classified "earthquake". -/
theorem C6_disaster_type_priority_witness :
    earthquake_keywords.any
      (fun w => containsSub w (lower (("Earthquake caused a flood").data))) = true ∧
    flood_keywords.any
      (fun w => containsSub w (lower (("Earthquake caused a flood").data))) = true ∧
    _detect_disaster_type (("Earthquake caused a flood").data) = ("earthquake").data :=
  ⟨by decide, by decide,
   (C6_disaster_type_priority (("Earthquake caused a flood").data)).1 (by decide)⟩

/-- C9: with sampling disabled on every issued request, the orchestrators are
    deterministic: any two engines that agree on sampling-free requests (in
    particular, two runs of one deterministic engine) produce identical
    outputs for `generate_all_summaries`, `generate_structured_report` and
    `generate_all_summaries_with_structured_report`. -/
theorem C9_determinism_sampling_disabled (e₁ e₂ : Engine)
    (h : ∀ req, req.do_sample = false → e₁ req = e₂ req) (text date : List Char) :
    generate_all_summaries e₁ text = generate_all_summaries e₂ text
  ∧ generate_structured_report e₁ text date = generate_structured_report e₂ text date
  ∧ generate_all_summaries_with_structured_report e₁ text date =
      generate_all_summaries_with_structured_report e₂ text date := by
  have hgs := generate_summary_congr h
  have h1 : generate_all_summaries e₁ text = generate_all_summaries e₂ text := by
    unfold generate_all_summaries
    simp only [hgs]
  have h2 : generate_structured_report e₁ text date =
      generate_structured_report e₂ text date := by
    unfold generate_structured_report raw_sections title_text intro_section
    simp only [hgs]
  refine ⟨h1, h2, ?_⟩
  unfold generate_all_summaries_with_structured_report
  rw [h1, h2]

/-- Witness for C9 at a concrete engine and input. -/
theorem C9_determinism_sampling_disabled_witness :
    generate_all_summaries okEngine (("quake hits town").data) =
      generate_all_summaries okEngine (("quake hits town").data)
  ∧ generate_structured_report okEngine (("quake hits town").data) sampleDate =
      generate_structured_report okEngine (("quake hits town").data) sampleDate
  ∧ generate_all_summaries_with_structured_report okEngine (("quake hits town").data)
      sampleDate =
      generate_all_summaries_with_structured_report okEngine (("quake hits town").data)
        sampleDate :=
  C9_determinism_sampling_disabled okEngine okEngine (fun _ _ => rfl)
    (("quake hits town").data) sampleDate

/-- C3 counterexample: on the structured-report path the strategic
    (Authorities, low-abstraction, bounds 60-150) generation call IS issued —
    `generate_all_summaries_with_structured_report` runs the full three-pass
    `generate_all_summaries` and merely discards the third output
    (structured_report.py line 316), contradicting the claim that no
    strategic-pass call is issued on this path. -/
theorem C3_counterexample_strategic_pass_issued :
    summaryRequest (("quake hits town").data) 150 60 false
      (some AudienceRole.authorities) (some AbstractionLevel.low) ∈
      (generate_all_summaries_with_structured_report okEngine
        (("quake hits town").data) sampleDate).2 := by
  have h : (generate_summary okEngine (("quake hits town").data) 150 60 false
      (some AudienceRole.authorities) (some AbstractionLevel.low)).2 =
      [summaryRequest (("quake hits town").data) 150 60 false
        (some AudienceRole.authorities) (some AbstractionLevel.low)] :=
    generate_summary_trace okEngine 150 60 false
      (some AudienceRole.authorities) (some AbstractionLevel.low) (by decide)
  simp only [generate_all_summaries_with_structured_report, generate_all_summaries, h,
    List.mem_append, List.mem_singleton]
  tauto

/-- C3 (amended): `generate_all_summaries_with_structured_report` returns
    the triple (alert, operational, document) where alert and operational are
    exactly the first two outputs of the multi-level orchestrator and the
    document is the structured report; however the strategic (third) pass IS
    still executed — its generation call is issued and only its output is
    discarded. -/
theorem C3_amended_strategic_output_discarded (engine : Engine) (text date : List Char) :
    (generate_all_summaries_with_structured_report engine text date).1.1 =
      (generate_all_summaries engine text).1.1
  ∧ (generate_all_summaries_with_structured_report engine text date).1.2.1 =
      (generate_all_summaries engine text).1.2.1
  ∧ (generate_all_summaries_with_structured_report engine text date).1.2.2 =
      (generate_structured_report engine text date).1
  ∧ (pyStrip text ≠ [] →
      summaryRequest text 150 60 false (some AudienceRole.authorities)
        (some AbstractionLevel.low) ∈
        (generate_all_summaries_with_structured_report engine text date).2) := by
  refine ⟨rfl, rfl, rfl, fun h => ?_⟩
  have htr : (generate_summary engine text 150 60 false
      (some AudienceRole.authorities) (some AbstractionLevel.low)).2 =
      [summaryRequest text 150 60 false
        (some AudienceRole.authorities) (some AbstractionLevel.low)] :=
    generate_summary_trace engine 150 60 false
      (some AudienceRole.authorities) (some AbstractionLevel.low) h
  simp only [generate_all_summaries_with_structured_report, generate_all_summaries, htr,
    List.mem_append, List.mem_singleton]
  tauto

/-- Witness for the amended C3 at a concrete engine and input. -/
theorem C3_amended_strategic_output_discarded_witness :
    (generate_all_summaries_with_structured_report okEngine (("flood in town").data)
        sampleDate).1.1 =
      (generate_all_summaries okEngine (("flood in town").data)).1.1
  ∧ (generate_all_summaries_with_structured_report okEngine (("flood in town").data)
        sampleDate).1.2.1 =
      (generate_all_summaries okEngine (("flood in town").data)).1.2.1
  ∧ (generate_all_summaries_with_structured_report okEngine (("flood in town").data)
        sampleDate).1.2.2 =
      (generate_structured_report okEngine (("flood in town").data) sampleDate).1
  ∧ summaryRequest (("flood in town").data) 150 60 false (some AudienceRole.authorities)
      (some AbstractionLevel.low) ∈
      (generate_all_summaries_with_structured_report okEngine (("flood in town").data)
        sampleDate).2 := by
  have h := C3_amended_strategic_output_discarded okEngine (("flood in town").data) sampleDate
  exact ⟨h.1, h.2.1, h.2.2.1, h.2.2.2 (by decide)⟩

theorem pyStrip_lit_append_ne_nil {c : Char} (hc : ¬ c.isWhitespace = true)
    (l t : List Char) : pyStrip ((c :: l) ++ t) ≠ [] := by
  rw [List.cons_append]
  exact pyStrip_cons_ne_nil hc _

theorem title_prompt_strip_ne_nil (text : List Char) : pyStrip (title_prompt text) ≠ [] :=
  pyStrip_lit_append_ne_nil (by decide) _ _

theorem intro_prompt_strip_ne_nil (text : List Char) : pyStrip (intro_prompt text) ≠ [] :=
  pyStrip_lit_append_ne_nil (by decide) _ _

theorem details_prompt_strip_ne_nil (text : List Char) : pyStrip (details_prompt text) ≠ [] :=
  pyStrip_lit_append_ne_nil (by decide) _ _

theorem impact_prompt_strip_ne_nil (text : List Char) : pyStrip (impact_prompt text) ≠ [] :=
  pyStrip_lit_append_ne_nil (by decide) _ _

theorem response_prompt_strip_ne_nil (text : List Char) : pyStrip (response_prompt text) ≠ [] :=
  pyStrip_lit_append_ne_nil (by decide) _ _

theorem aftermath_prompt_strip_ne_nil (text : List Char) :
    pyStrip (aftermath_prompt text) ≠ [] :=
  pyStrip_lit_append_ne_nil (by decide) _ _

theorem generate_structured_report_trace (engine : Engine) (text date : List Char) :
    (generate_structured_report engine text date).2 =
      [summaryRequest (title_prompt text) 15 5 false none none,
       summaryRequest (intro_prompt text) 80 30 false none none,
       summaryRequest (details_prompt text) 100 40 false none none,
       summaryRequest (impact_prompt text) 100 40 false none none,
       summaryRequest (response_prompt text) 80 30 false none none,
       summaryRequest (aftermath_prompt text) 80 30 false none none] := by
  have h1 := generate_summary_trace engine 15 5 false none none
    (title_prompt_strip_ne_nil text)
  have h2 := generate_summary_trace engine 80 30 false none none
    (intro_prompt_strip_ne_nil text)
  have h3 := generate_summary_trace engine 100 40 false none none
    (details_prompt_strip_ne_nil text)
  have h4 := generate_summary_trace engine 100 40 false none none
    (impact_prompt_strip_ne_nil text)
  have h5 := generate_summary_trace engine 80 30 false none none
    (response_prompt_strip_ne_nil text)
  have h6 := generate_summary_trace engine 80 30 false none none
    (aftermath_prompt_strip_ne_nil text)
  simp only [generate_structured_report, h1, h2, h3, h4, h5, h6]
  rfl

/-- C2 counterexample: the alert pass's bounds (min 8, max 20) are NOT
    strictly the smallest over all passes issued by the core: the
    structured-report title pass uses min 5 and max 15
    (structured_report.py line 128), both strictly below the alert bounds. -/
theorem C2_counterexample_title_bounds_below_alert :
    ¬ (∀ p ∈ (generate_all_summaries_with_structured_report okEngine
        (("quake hits town").data) sampleDate).2,
        (p.min_length = 8 ∧ p.max_length = 20) ∨
          (8 < p.min_length ∧ 20 < p.max_length)) := by
  intro hall
  have hmem : summaryRequest (title_prompt (("quake hits town").data)) 15 5 false none none ∈
      (generate_all_summaries_with_structured_report okEngine
        (("quake hits town").data) sampleDate).2 := by
    simp only [generate_all_summaries_with_structured_report, List.mem_append,
      generate_structured_report_trace, List.mem_cons]
    tauto
  have h := hall _ hmem
  simp [summaryRequest] at h

/-- C2 (amended): every generation pass issued by the core satisfies
    `min_length ≤ max_length`; within `generate_all_summaries` the passes run
    in the fixed order alert (GeneralPublic, high, 8-20), operational
    (EmergencyResponders, medium, 25-60), strategic (Authorities, low,
    60-150), with the alert bounds strictly the smallest of those three;
    but the structured-report passes run with bounds title 5-15 (strictly
    below the alert bounds), introduction 30-80, details 40-100,
    impact 40-100, response 30-80, aftermath 30-80. -/
theorem C2_amended_pass_bounds (engine : Engine) (text date : List Char) :
    (∀ p ∈ (generate_all_summaries_with_structured_report engine text date).2,
        p.min_length ≤ p.max_length)
  ∧ (pyStrip text ≠ [] →
      (generate_all_summaries engine text).2 =
        [summaryRequest text 20 8 false (some AudienceRole.general_public)
           (some AbstractionLevel.high),
         summaryRequest text 60 25 false (some AudienceRole.emergency_responders)
           (some AbstractionLevel.medium),
         summaryRequest text 150 60 false (some AudienceRole.authorities)
           (some AbstractionLevel.low)])
  ∧ ((generate_structured_report engine text date).2.map
        (fun p => (p.min_length, p.max_length))) =
      [(5, 15), (30, 80), (40, 100), (40, 100), (30, 80), (30, 80)] := by
  refine ⟨?_, ?_, ?_⟩
  · intro p hp
    simp only [generate_all_summaries_with_structured_report, generate_all_summaries,
      generate_structured_report, List.mem_append, or_assoc] at hp
    rcases hp with h | h | h | h | h | h | h | h | h <;>
      · have hb := bounds_of_mem_trace h
        omega
  · intro h
    have h1 := generate_summary_trace engine 20 8 false
      (some AudienceRole.general_public) (some AbstractionLevel.high) h
    have h2 := generate_summary_trace engine 60 25 false
      (some AudienceRole.emergency_responders) (some AbstractionLevel.medium) h
    have h3 := generate_summary_trace engine 150 60 false
      (some AudienceRole.authorities) (some AbstractionLevel.low) h
    simp only [generate_all_summaries, h1, h2, h3]
    rfl
  · rw [generate_structured_report_trace]
    rfl

/-- Witness for the amended C2 at a concrete engine and input. -/
theorem C2_amended_pass_bounds_witness :
    pyStrip (("quake hits town").data) ≠ []
  ∧ (generate_all_summaries okEngine (("quake hits town").data)).2 =
      [summaryRequest (("quake hits town").data) 20 8 false
         (some AudienceRole.general_public) (some AbstractionLevel.high),
       summaryRequest (("quake hits town").data) 60 25 false
         (some AudienceRole.emergency_responders) (some AbstractionLevel.medium),
       summaryRequest (("quake hits town").data) 150 60 false
         (some AudienceRole.authorities) (some AbstractionLevel.low)]
  ∧ ((generate_structured_report okEngine (("quake hits town").data) sampleDate).2.map
        (fun p => (p.min_length, p.max_length))) =
      [(5, 15), (30, 80), (40, 100), (40, 100), (30, 80), (30, 80)] :=
  ⟨by decide,
   (C2_amended_pass_bounds okEngine (("quake hits town").data) sampleDate).2.1 (by decide),
   (C2_amended_pass_bounds okEngine (("quake hits town").data) sampleDate).2.2⟩

/-- C8 counterexample: dependency-missing failures are NOT the sole hard
    failure the pipeline propagates — a generic (non-FFmpeg) transcription
    exception is re-raised unchanged (speech_to_text.py line 88) and
    propagates out of `process_audio_file` as a generic error, not as inline
    degraded text. -/
theorem C8_counterexample_generic_failure_propagates :
    process_audio_file allFS cudaFailBackend okEngine (("report.wav").data) none =
      Except.error (PyError.generic (("CUDA out of memory").data)) := by
  rfl

/-- C8 (amended): a missing-FFmpeg failure at the transcription boundary is
    propagated as a typed `FileNotFoundError` carrying the fixed remediation
    message, distinguishable from generic failures; but it is not the sole
    propagated hard failure: any other transcription exception is re-raised
    unchanged, and an empty transcription raises `ValueError`; only
    summarization-engine failures degrade to inline text. -/
theorem C8_amended_ffmpeg_typed_failure (fs : List Char → Bool)
    (backend : WhisperBackend) (engine : Engine) (path : List Char)
    (lang : Option (List Char)) (m : List Char) (hfs : fs path = true) :
    (backend path lang = Except.error (PyError.fileNotFound m) →
      containsSub ("ffmpeg").data (lower m) = true →
      process_audio_file fs backend engine path lang =
        Except.error (PyError.fileNotFound ffmpeg_install_msg))
  ∧ (backend path lang = Except.error (PyError.generic m) →
      containsSub ("ffmpeg").data (lower m) = false →
      containsSub ("cannot find the file").data (lower m) = false →
      process_audio_file fs backend engine path lang =
        Except.error (PyError.generic m))
  ∧ (backend path lang = Except.ok [] →
      process_audio_file fs backend engine path lang =
        Except.error (PyError.valueError
          (("No text was transcribed from the audio file.").data))) := by
  have hfs' : ¬ fs path = false := by simp [hfs]
  refine ⟨fun hb hm => ?_, fun hb hm1 hm2 => ?_, fun hb => ?_⟩
  · unfold process_audio_file transcribe_audio
    rw [if_neg hfs', hb]
    simp [hm]
  · unfold process_audio_file transcribe_audio
    rw [if_neg hfs', hb]
    simp [pyErrorMessage, hm1, hm2]
  · unfold process_audio_file transcribe_audio
    rw [if_neg hfs', hb]
    simp [pyStrip]

/-- Witness for the amended C8 at a concrete missing-FFmpeg backend. -/
theorem C8_amended_ffmpeg_typed_failure_witness :
    process_audio_file allFS ffmpegFailBackend okEngine (("report.wav").data) none =
      Except.error (PyError.fileNotFound ffmpeg_install_msg) :=
  (C8_amended_ffmpeg_typed_failure allFS ffmpegFailBackend okEngine
    (("report.wav").data) none (("No such file or directory: ffmpeg").data) rfl).1
    rfl (by decide)

/-! Lemmas about the dict model. -/

theorem dkeys_cons (p : List Char × List Char) (rest : SectionDict) :
    dkeys (p :: rest) = p.1 :: dkeys rest := rfl

theorem any_key_eq (d : SectionDict) (k : List Char) :
    d.any (fun p => p.1 == k) = true ↔ k ∈ dkeys d := by
  induction d with
  | nil => simp [dkeys]
  | cons p rest ih =>
    rw [dkeys_cons]
    simp only [List.any_cons, Bool.or_eq_true, beq_iff_eq, List.mem_cons, ih]
    constructor
    · rintro (h | h)
      · exact Or.inl h.symm
      · exact Or.inr h
    · rintro (h | h)
      · exact Or.inl h.symm
      · exact Or.inr h

theorem dget_cons (p : List Char × List Char) (rest : SectionDict) (q : List Char) :
    dget (p :: rest) q = if (p.1 == q) = true then p.2 else dget rest q := by
  unfold dget
  rcases hq : (p.1 == q) with _ | _ <;>
    simp [List.find?_cons, hq]

theorem dget_map_subst (d : SectionDict) (k v : List Char) :
    k ∈ dkeys d →
    dget (d.map (fun p => if p.1 == k then (k, v) else p)) k = v := by
  induction d with
  | nil => intro h; simp [dkeys] at h
  | cons p rest ih =>
    intro h
    rcases hp : (p.1 == k) with _ | _
    · have h' : k ∈ dkeys rest := by
        rw [dkeys_cons] at h
        rcases List.mem_cons.mp h with h0 | h0
        · exfalso
          rw [h0] at hp
          simp at hp
        · exact h0
      simp only [List.map_cons, hp, Bool.false_eq_true, if_false]
      rw [dget_cons, if_neg (by simp [hp])]
      exact ih h'
    · simp only [List.map_cons, hp, if_true]
      rw [dget_cons, if_pos (by simp)]

theorem dget_append_single (d : SectionDict) (k v : List Char)
    (h : ¬ k ∈ dkeys d) : dget (d ++ [(k, v)]) k = v := by
  induction d with
  | nil => rw [List.nil_append, dget_cons]; simp
  | cons p rest ih =>
    rw [dkeys_cons] at h
    have hp : (p.1 == k) = false := by
      simp only [beq_eq_false_iff_ne]
      exact fun hc => h (List.mem_cons.mpr (Or.inl hc.symm))
    have h' : ¬ k ∈ dkeys rest := fun hc => h (List.mem_cons.mpr (Or.inr hc))
    rw [List.cons_append, dget_cons, if_neg (by simp [hp])]
    exact ih h'

theorem dget_dset_self (d : SectionDict) (k v : List Char) :
    dget (dset d k v) k = v := by
  unfold dset
  by_cases h : d.any (fun p => p.1 == k) = true
  · rw [if_pos h]
    exact dget_map_subst d k v ((any_key_eq d k).mp h)
  · rw [if_neg h]
    exact dget_append_single d k v (fun hc => h ((any_key_eq d k).mpr hc))

theorem dget_dset_ne {k q : List Char} (hne : q ≠ k) (d : SectionDict) (v : List Char) :
    dget (dset d k v) q = dget d q := by
  have hkq : (k == q) = false := by
    simp only [beq_eq_false_iff_ne]
    exact fun hc => hne hc.symm
  unfold dset
  split_ifs with h
  · clear h
    induction d with
    | nil => rfl
    | cons p rest ih =>
      rcases hp : (p.1 == k) with _ | _
      · simp only [List.map_cons, hp, Bool.false_eq_true, if_false]
        rw [dget_cons, dget_cons, ih]
      · have hp' : p.1 = k := beq_iff_eq.mp hp
        simp only [List.map_cons, hp, if_true]
        rw [dget_cons, dget_cons, ih]
        simp [hp', hkq]
  · clear h
    induction d with
    | nil =>
      rw [List.nil_append, dget_cons]
      simp [hkq, dget]
    | cons p rest ih =>
      rw [List.cons_append, dget_cons, dget_cons, ih]

theorem dkeys_dset_of_mem {d : SectionDict} {k : List Char} (v : List Char)
    (h : k ∈ dkeys d) : dkeys (dset d k v) = dkeys d := by
  unfold dset
  rw [if_pos ((any_key_eq d k).mpr h)]
  unfold dkeys
  rw [List.map_map]
  apply List.map_congr_left
  intro p _
  rcases hp : (p.1 == k) with _ | _
  · simp [Function.comp, hp]
  · simp only [Function.comp_apply, hp, if_true]
    exact (beq_iff_eq.mp hp).symm

/-! Lemmas about the diversity-repair pass. -/

theorem dget_ite (c : Prop) [Decidable c] (e1 e2 : SectionDict) (k : List Char) :
    dget (if c then e1 else e2) k = if c then dget e1 k else dget e2 k := by
  split_ifs <;> rfl

theorem dkeys_ite (c : Prop) [Decidable c] (e1 e2 : SectionDict) :
    dkeys (if c then e1 else e2) = if c then dkeys e1 else dkeys e2 := by
  split_ifs <;> rfl

theorem ensure_frame (d : SectionDict) (k : List Char)
    (h1 : k ≠ kDetails) (h2 : k ≠ kImpact) :
    dget (_ensure_section_diversity d) k = dget d k := by
  unfold _ensure_section_diversity
  simp only [dget_ite, dget_dset_ne h1, dget_dset_ne h2, ite_self]

theorem ensure_details_cases (d : SectionDict) :
    dget (_ensure_section_diversity d) kDetails = dget d kDetails ∨
    dget (_ensure_section_diversity d) kDetails =
      ("The disaster progressed as follows: ").data ++ dget d kDetails := by
  have hDI : kDetails ≠ kImpact := by decide
  unfold _ensure_section_diversity
  simp only [dget_ite, dget_dset_ne hDI, dget_dset_self]
  split_ifs <;> simp

theorem ensure_impact_cases (d : SectionDict) :
    dget (_ensure_section_diversity d) kImpact = dget d kImpact ∨
    dget (_ensure_section_diversity d) kImpact =
      replaceFirst ("The disaster").data ("Initial assessments indicate").data
        (replaceFirst ("A powerful").data ("According to initial reports,").data
          (dget d kImpact)) := by
  have hID : kImpact ≠ kDetails := by decide
  unfold _ensure_section_diversity
  simp only [dget_ite, dget_dset_ne hID, dget_dset_self, ite_self]
  split_ifs <;> simp

theorem dkeys_dset_chain {d e : SectionDict} (he : dkeys e = dkeys d)
    (hk : kImpact ∈ dkeys d) (w1 w2 : List Char) :
    dkeys (dset (dset e kImpact w1) kImpact w2) = dkeys d := by
  have h1 : kImpact ∈ dkeys e := he ▸ hk
  have h2 : dkeys (dset e kImpact w1) = dkeys e := dkeys_dset_of_mem _ h1
  have h3 : kImpact ∈ dkeys (dset e kImpact w1) := h2 ▸ h1
  rw [dkeys_dset_of_mem _ h3, h2, he]

theorem ensure_keys (d : SectionDict) (hd : kDetails ∈ dkeys d)
    (him : kImpact ∈ dkeys d) :
    dkeys (_ensure_section_diversity d) = dkeys d := by
  unfold _ensure_section_diversity
  simp only [dget_ite, dget_dset_ne (show kImpact ≠ kDetails from by decide), ite_self,
    dkeys_ite]
  split_ifs <;>
    first
      | rfl
      | exact dkeys_dset_of_mem _ hd
      | exact dkeys_dset_chain (dkeys_dset_of_mem _ hd) him _ _
      | exact dkeys_dset_chain rfl him _ _

/-- C10: the diversity-repair pass is a frame-preserving transformation:
    for any sections mapping containing the six section keys, the key set is
    unchanged, and the values bound to title, introduction, response and
    aftermath are unchanged — only details and impact may be modified
    (structured_report.py lines 195-232). -/
theorem C10_diversity_repair_frame (d : SectionDict)
    (ht : kTitle ∈ dkeys d) (hi : kIntroduction ∈ dkeys d) (hd : kDetails ∈ dkeys d)
    (him : kImpact ∈ dkeys d) (hr : kResponse ∈ dkeys d) (ha : kAftermath ∈ dkeys d) :
    dkeys (_ensure_section_diversity d) = dkeys d
  ∧ dget (_ensure_section_diversity d) kTitle = dget d kTitle
  ∧ dget (_ensure_section_diversity d) kIntroduction = dget d kIntroduction
  ∧ dget (_ensure_section_diversity d) kResponse = dget d kResponse
  ∧ dget (_ensure_section_diversity d) kAftermath = dget d kAftermath :=
  ⟨ensure_keys d hd him,
   ensure_frame d kTitle (by decide) (by decide),
   ensure_frame d kIntroduction (by decide) (by decide),
   ensure_frame d kResponse (by decide) (by decide),
   ensure_frame d kAftermath (by decide) (by decide)⟩

/-- Witness for C10 on a concrete six-key mapping. -/
theorem C10_diversity_repair_frame_witness :
    dkeys (_ensure_section_diversity sample_sections) = dkeys sample_sections
  ∧ dget (_ensure_section_diversity sample_sections) kTitle = dget sample_sections kTitle
  ∧ dget (_ensure_section_diversity sample_sections) kIntroduction =
      dget sample_sections kIntroduction
  ∧ dget (_ensure_section_diversity sample_sections) kResponse =
      dget sample_sections kResponse
  ∧ dget (_ensure_section_diversity sample_sections) kAftermath =
      dget sample_sections kAftermath :=
  C10_diversity_repair_frame sample_sections (by decide) (by decide) (by decide)
    (by decide) (by decide) (by decide)

theorem pyStrip_length_le (s : List Char) : (pyStrip s).length ≤ s.length := by
  unfold pyStrip
  rw [List.length_reverse]
  have h1 : (((s.dropWhile Char.isWhitespace).reverse).dropWhile Char.isWhitespace).length ≤
      ((s.dropWhile Char.isWhitespace).reverse).length :=
    (List.dropWhile_sublist _).length_le
  have h2 : (s.dropWhile Char.isWhitespace).length ≤ s.length :=
    (List.dropWhile_sublist _).length_le
  rw [List.length_reverse] at h1
  omega

theorem ensure_impact_value (d : SectionDict)
    (hcol : pyStrip (lower ((dget d kImpact).take 50)) =
        pyStrip (lower ((dget d kIntroduction).take 50)) ∨
      pyStrip (lower ((dget d kImpact).take 50)) =
        pyStrip (lower ((dget d kDetails).take 50)))
    (hvoc : impact_vocabulary.any (fun w => containsSub w (lower (dget d kImpact))) = true)
    (hsw : (startsWith ("A powerful").data (dget d kImpact) ||
        startsWith ("The disaster").data (dget d kImpact)) = true) :
    dget (_ensure_section_diversity d) kImpact =
      replaceFirst ("The disaster").data ("Initial assessments indicate").data
        (replaceFirst ("A powerful").data ("According to initial reports,").data
          (dget d kImpact)) := by
  unfold _ensure_section_diversity
  simp only [dget_ite, dget_dset_ne (show kImpact ≠ kDetails from by decide),
    dget_dset_self, ite_self]
  rw [if_pos hcol, if_pos hvoc, if_pos hsw]

theorem ensure_details_value (d : SectionDict)
    (hcol : pyStrip (lower ((dget d kIntroduction).take 50)) =
        pyStrip (lower ((dget d kDetails).take 50)))
    (hlen : 20 < (pyStrip (lower ((dget d kIntroduction).take 50))).length)
    (h1 : containsSub ("how").data (lower (dget d kDetails)) = false)
    (h2 : containsSub ("developed").data (lower (dget d kDetails)) = false) :
    dget (_ensure_section_diversity d) kDetails =
      ("The disaster progressed as follows: ").data ++ dget d kDetails := by
  unfold _ensure_section_diversity
  simp only [dget_ite, dget_dset_ne (show kDetails ≠ kImpact from by decide),
    dget_dset_self, ite_self]
  rw [if_pos ⟨hcol, hlen⟩, if_neg (by simp [h1, h2])]

/-- C5 counterexample: a sections mapping whose introduction and details have
    identical (lower-cased, trimmed) 50-character prefixes is NOT repaired
    when that prefix is 20 characters or shorter — the code additionally
    requires `len(intro_start) > 20` (structured_report.py line 211) — so the
    repaired details still equals introduction's first 50 characters,
    contradicting the claim that every such collision is repaired. -/
theorem C5_counterexample_short_collision_not_repaired :
    pyStrip (lower ((dget c5_sections kIntroduction).take 50)) =
      pyStrip (lower ((dget c5_sections kDetails).take 50))
  ∧ _ensure_section_diversity c5_sections = c5_sections
  ∧ dget (_ensure_section_diversity c5_sections) kDetails =
      (dget c5_sections kIntroduction).take 50 :=
  ⟨by decide, by decide, by decide⟩

/-- C5 (amended): the diversity-repair pass repairs a details/introduction
    prefix collision only when the shared (lower-cased, trimmed) 50-character
    prefix is longer than 20 characters and details contains neither "how"
    nor "developed": then details is prefixed with the progression clause and
    the repaired details differs from introduction's first 50 characters.
    An impact collision with casualty/damage vocabulary is rewritten only
    when impact starts with 'A powerful' or 'The disaster': the leading
    clause becomes the corresponding attribution phrase.  The structured
    path issues exactly six engine requests regardless, so the repair makes
    no second engine call. -/
theorem C5_amended_diversity_repair (d : SectionDict) (engine : Engine)
    (text date : List Char) :
    (pyStrip (lower ((dget d kIntroduction).take 50)) =
       pyStrip (lower ((dget d kDetails).take 50)) →
     20 < (pyStrip (lower ((dget d kIntroduction).take 50))).length →
     containsSub ("how").data (lower (dget d kDetails)) = false →
     containsSub ("developed").data (lower (dget d kDetails)) = false →
     dget (_ensure_section_diversity d) kDetails =
       ("The disaster progressed as follows: ").data ++ dget d kDetails ∧
     dget (_ensure_section_diversity d) kDetails ≠
       pyStrip (lower ((dget d kIntroduction).take 50)))
  ∧ ((pyStrip (lower ((dget d kImpact).take 50)) =
        pyStrip (lower ((dget d kIntroduction).take 50)) ∨
      pyStrip (lower ((dget d kImpact).take 50)) =
        pyStrip (lower ((dget d kDetails).take 50))) →
     impact_vocabulary.any (fun w => containsSub w (lower (dget d kImpact))) = true →
     startsWith ("A powerful").data (dget d kImpact) = true →
     startsWith ("According to initial reports,").data
       (dget (_ensure_section_diversity d) kImpact) = true)
  ∧ ((pyStrip (lower ((dget d kImpact).take 50)) =
        pyStrip (lower ((dget d kIntroduction).take 50)) ∨
      pyStrip (lower ((dget d kImpact).take 50)) =
        pyStrip (lower ((dget d kDetails).take 50))) →
     impact_vocabulary.any (fun w => containsSub w (lower (dget d kImpact))) = true →
     startsWith ("A powerful").data (dget d kImpact) = false →
     startsWith ("The disaster").data (dget d kImpact) = true →
     startsWith ("Initial assessments indicate").data
       (dget (_ensure_section_diversity d) kImpact) = true)
  ∧ ((generate_structured_report engine text date).2).length = 6 := by
  refine ⟨fun hcol hlen h1 h2 => ?_, fun hcol hvoc hswA => ?_,
    fun hcol hvoc hswA hswT => ?_, ?_⟩
  · have hval := ensure_details_value d hcol hlen h1 h2
    refine ⟨hval, ?_⟩
    rw [hval]
    intro heq
    have hlc : (("The disaster progressed as follows: ").data).length = 36 := by decide
    have hs1 := pyStrip_length_le (lower ((dget d kIntroduction).take 50))
    have hs2 := pyStrip_length_le (lower ((dget d kDetails).take 50))
    have ht1 : (lower ((dget d kIntroduction).take 50)).length ≤ 50 := by
      simp [lower, List.length_take]
    have ht2 : (lower ((dget d kDetails).take 50)).length ≤ (dget d kDetails).length := by
      simp [lower, List.length_take]
    have hlen2 : 20 < (pyStrip (lower ((dget d kDetails).take 50))).length := hcol ▸ hlen
    have hle := congrArg List.length heq
    rw [List.length_append, hlc] at hle
    omega
  · rw [ensure_impact_value d hcol hvoc (by simp [hswA])]
    rw [replaceFirst_of_startsWith (by decide) hswA]
    rw [replaceFirst_append_of_head_notMem _ _ (by decide)]
    exact startsWith_append_self _ _
  · rw [ensure_impact_value d hcol hvoc (by simp [hswT])]
    rcases startsWith_iff.mp hswT with ⟨rest, hr⟩
    rw [hr]
    rw [replaceFirst_append_of_head_notMem _ _ (by decide)]
    rw [replaceFirst_of_startsWith (by decide) (startsWith_append_self _ _)]
    rw [List.drop_left]
    exact startsWith_append_self _ _
  · rw [generate_structured_report_trace]
    rfl

/-- Witness for the amended C5 on concrete colliding sections mappings. -/
theorem C5_amended_diversity_repair_witness :
    (dget (_ensure_section_diversity c5_sections_repair) kDetails =
       ("The disaster progressed as follows: ").data ++ dget c5_sections_repair kDetails ∧
     dget (_ensure_section_diversity c5_sections_repair) kDetails ≠
       pyStrip (lower ((dget c5_sections_repair kIntroduction).take 50)))
  ∧ startsWith ("According to initial reports,").data
      (dget (_ensure_section_diversity c5_sections_repair) kImpact) = true
  ∧ startsWith ("Initial assessments indicate").data
      (dget (_ensure_section_diversity c5_sections_td) kImpact) = true
  ∧ ((generate_structured_report okEngine (("quake").data) sampleDate).2).length = 6 :=
  ⟨(C5_amended_diversity_repair c5_sections_repair okEngine (("quake").data)
      sampleDate).1 (by decide) (by decide) (by decide) (by decide),
   (C5_amended_diversity_repair c5_sections_repair okEngine (("quake").data)
      sampleDate).2.1 (by decide) (by decide) (by decide),
   (C5_amended_diversity_repair c5_sections_td okEngine (("quake").data)
      sampleDate).2.2.1 (by decide) (by decide) (by decide) (by decide),
   (C5_amended_diversity_repair c5_sections_td okEngine (("quake").data)
      sampleDate).2.2.2⟩

/-! Header counting for the assembled document. -/

theorem assemble_segments (t d i de im r a : List Char) :
    assemble_report t d i de im r a =
      hdr_title ++ '\n' :: (t ++ '\n' :: ((byline_lead ++ d) ++ '\n' :: '\n' ::
      (hdr_intro ++ '\n' :: (i ++ '\n' :: '\n' ::
      (hdr_details ++ '\n' :: (de ++ '\n' :: '\n' ::
      (hdr_impact ++ '\n' :: (im ++ '\n' :: '\n' ::
      (hdr_response ++ '\n' :: (r ++ '\n' :: '\n' ::
      (hdr_aftermath ++ '\n' :: a))))))))))) := by
  simp only [assemble_report, hdr_title, hdr_intro, hdr_details, hdr_impact,
    hdr_response, hdr_aftermath, byline_lead, List.append_assoc]
  rfl

theorem countOcc_assemble (pat : List Char) (hne : pat ≠ []) (hnl : ('\n') ∉ pat)
    (t d i de im r a : List Char) :
    countOcc pat (assemble_report t d i de im r a) =
      countOcc pat hdr_title + countOcc pat t + countOcc pat (byline_lead ++ d) +
      countOcc pat hdr_intro + countOcc pat i + countOcc pat hdr_details +
      countOcc pat de + countOcc pat hdr_impact + countOcc pat im +
      countOcc pat hdr_response + countOcc pat r + countOcc pat hdr_aftermath +
      countOcc pat a := by
  rw [assemble_segments]
  simp only [countOcc_append_cons hne hnl, countOcc_cons hne hnl]
  omega

theorem countOcc_assemble_headers (pat : List Char) (hne : pat ≠ [])
    (hnl : ('\n') ∉ pat) (hstar : ('*') ∈ pat) (t d i de im r a : List Char)
    (ht : ('*') ∉ t) (hd2 : ('*') ∉ d) (hi : ('*') ∉ i) (hde : ('*') ∉ de)
    (him : ('*') ∉ im) (hr : ('*') ∉ r) (ha : ('*') ∉ a) :
    countOcc pat (assemble_report t d i de im r a) =
      countOcc pat hdr_title + countOcc pat hdr_intro + countOcc pat hdr_details +
      countOcc pat hdr_impact + countOcc pat hdr_response + countOcc pat hdr_aftermath := by
  rw [countOcc_assemble pat hne hnl]
  have h1 : countOcc pat t = 0 := countOcc_eq_zero hstar ht
  have h2 : countOcc pat (byline_lead ++ d) = 0 := by
    apply countOcc_eq_zero hstar
    intro hmem
    rcases List.mem_append.mp hmem with h | h
    · revert h; decide
    · exact hd2 h
  have h3 : countOcc pat i = 0 := countOcc_eq_zero hstar hi
  have h4 : countOcc pat de = 0 := countOcc_eq_zero hstar hde
  have h5 : countOcc pat im = 0 := countOcc_eq_zero hstar him
  have h6 : countOcc pat r = 0 := countOcc_eq_zero hstar hr
  have h7 : countOcc pat a = 0 := countOcc_eq_zero hstar ha
  omega

theorem chain_step {p : List Char} {ps : List (List Char)} (u z : List Char)
    (h : containsInOrder ps ('\n' :: z)) :
    containsInOrder (p :: ps) ('\n' :: (u ++ '\n' :: '\n' :: (p ++ '\n' :: z))) :=
  ⟨'\n' :: (u ++ ['\n', '\n']), '\n' :: z, by simp [List.append_assoc], h⟩

theorem chain_step2 {p : List Char} {ps : List (List Char)} (u v z : List Char)
    (h : containsInOrder ps ('\n' :: z)) :
    containsInOrder (p :: ps)
      ('\n' :: (u ++ '\n' :: (v ++ '\n' :: '\n' :: (p ++ '\n' :: z)))) :=
  ⟨'\n' :: (u ++ '\n' :: (v ++ ['\n', '\n'])), '\n' :: z,
   by simp [List.append_assoc], h⟩

theorem containsInOrder_assemble (t d i de im r a : List Char) :
    containsInOrder [hdr_title, hdr_intro, hdr_details, hdr_impact, hdr_response,
      hdr_aftermath] (assemble_report t d i de im r a) := by
  rw [assemble_segments]
  refine ⟨[], '\n' :: (t ++ '\n' :: ((byline_lead ++ d) ++ '\n' :: '\n' ::
    (hdr_intro ++ '\n' :: (i ++ '\n' :: '\n' ::
    (hdr_details ++ '\n' :: (de ++ '\n' :: '\n' ::
    (hdr_impact ++ '\n' :: (im ++ '\n' :: '\n' ::
    (hdr_response ++ '\n' :: (r ++ '\n' :: '\n' ::
    (hdr_aftermath ++ '\n' :: a))))))))))), by simp, ?_⟩
  exact chain_step2 t (byline_lead ++ d) _
    (chain_step i _ (chain_step de _ (chain_step im _ (chain_step r _ trivial))))

theorem dget_raw_intro (engine : Engine) (text : List Char) :
    dget (raw_sections engine text) kIntroduction = intro_section engine text := rfl

theorem dget_raw_details (engine : Engine) (text : List Char) :
    dget (raw_sections engine text) kDetails =
      (generate_summary engine (details_prompt text) 100 40 false none none).1 := rfl

theorem dget_raw_impact (engine : Engine) (text : List Char) :
    dget (raw_sections engine text) kImpact =
      (generate_summary engine (impact_prompt text) 100 40 false none none).1 := rfl

theorem dget_raw_response (engine : Engine) (text : List Char) :
    dget (raw_sections engine text) kResponse =
      (generate_summary engine (response_prompt text) 80 30 false none none).1 := rfl

theorem dget_raw_aftermath (engine : Engine) (text : List Char) :
    dget (raw_sections engine text) kAftermath =
      (generate_summary engine (aftermath_prompt text) 80 30 false none none).1 := rfl

/-- C4: for every input text and date, and any engine whose responses (and
    error messages) never contain the reserved `'*'` markup character, the
    document returned by `generate_structured_report` contains each of the
    six fixed section headers exactly once, in the fixed order — including
    when section generations degrade to error-sentinel strings
    (structured_report.py lines 172-193). -/
theorem C4_structured_report_headers (engine : Engine) (text date : List Char)
    (hE : engineStarFree engine) (hdate : ('*') ∉ date) :
    countOcc hdr_title (generate_structured_report engine text date).1 = 1
  ∧ countOcc hdr_intro (generate_structured_report engine text date).1 = 1
  ∧ countOcc hdr_details (generate_structured_report engine text date).1 = 1
  ∧ countOcc hdr_impact (generate_structured_report engine text date).1 = 1
  ∧ countOcc hdr_response (generate_structured_report engine text date).1 = 1
  ∧ countOcc hdr_aftermath (generate_structured_report engine text date).1 = 1
  ∧ containsInOrder [hdr_title, hdr_intro, hdr_details, hdr_impact, hdr_response,
      hdr_aftermath] (generate_structured_report engine text date).1 := by
  have hT : ('*') ∉ title_text engine text := by
    intro h
    exact starFree_generate_summary hE _ _ _ _ _ _ (mem_pyStrip (mem_rstripDots h))
  have hIntro0 : ('*') ∉ intro_section engine text := by
    simp only [intro_section]
    split_ifs
    · intro h
      rcases mem_replaceFirst h with h | h
      · exact starFree_generate_summary hE _ _ _ _ _ _ h
      · revert h; decide
    · exact starFree_generate_summary hE _ _ _ _ _ _
  have hI : ('*') ∉ dget (_ensure_section_diversity (raw_sections engine text))
      kIntroduction := by
    rw [ensure_frame _ _ (by decide) (by decide), dget_raw_intro]
    exact hIntro0
  have hDe : ('*') ∉ dget (_ensure_section_diversity (raw_sections engine text))
      kDetails := by
    rcases ensure_details_cases (raw_sections engine text) with h | h <;>
      rw [h, dget_raw_details]
    · exact starFree_generate_summary hE _ _ _ _ _ _
    · intro hm
      rcases List.mem_append.mp hm with hm | hm
      · revert hm; decide
      · exact starFree_generate_summary hE _ _ _ _ _ _ hm
  have hIm : ('*') ∉ dget (_ensure_section_diversity (raw_sections engine text))
      kImpact := by
    rcases ensure_impact_cases (raw_sections engine text) with h | h <;>
      rw [h, dget_raw_impact]
    · exact starFree_generate_summary hE _ _ _ _ _ _
    · intro hm
      rcases mem_replaceFirst hm with hm | hm
      · rcases mem_replaceFirst hm with hm | hm
        · exact starFree_generate_summary hE _ _ _ _ _ _ hm
        · revert hm; decide
      · revert hm; decide
  have hR : ('*') ∉ dget (_ensure_section_diversity (raw_sections engine text))
      kResponse := by
    rw [ensure_frame _ _ (by decide) (by decide), dget_raw_response]
    exact starFree_generate_summary hE _ _ _ _ _ _
  have hA : ('*') ∉ dget (_ensure_section_diversity (raw_sections engine text))
      kAftermath := by
    rw [ensure_frame _ _ (by decide) (by decide), dget_raw_aftermath]
    exact starFree_generate_summary hE _ _ _ _ _ _
  have hrep : (generate_structured_report engine text date).1 =
      assemble_report (title_text engine text) date
        (dget (_ensure_section_diversity (raw_sections engine text)) kIntroduction)
        (dget (_ensure_section_diversity (raw_sections engine text)) kDetails)
        (dget (_ensure_section_diversity (raw_sections engine text)) kImpact)
        (dget (_ensure_section_diversity (raw_sections engine text)) kResponse)
        (dget (_ensure_section_diversity (raw_sections engine text)) kAftermath) := rfl
  rw [hrep]
  refine ⟨?_, ?_, ?_, ?_, ?_, ?_, containsInOrder_assemble _ _ _ _ _ _ _⟩ <;>
    · rw [countOcc_assemble_headers _ (by decide) (by decide) (by decide)
        _ _ _ _ _ _ _ hT hdate hI hDe hIm hR hA]
      decide

theorem okEngine_starFree : engineStarFree okEngine := by
  intro req
  refine ⟨fun s hs => ?_, fun e he => ?_⟩
  · simp only [okEngine] at hs
    injection hs with h
    rw [← h]
    decide
  · exact absurd he (by simp only [okEngine]; intro h; cases h)

/-- Witness for C4 at a concrete engine, text and date. -/
theorem C4_structured_report_headers_witness :
    countOcc hdr_title (generate_structured_report okEngine (("quake").data)
      sampleDate).1 = 1
  ∧ countOcc hdr_intro (generate_structured_report okEngine (("quake").data)
      sampleDate).1 = 1
  ∧ countOcc hdr_details (generate_structured_report okEngine (("quake").data)
      sampleDate).1 = 1
  ∧ countOcc hdr_impact (generate_structured_report okEngine (("quake").data)
      sampleDate).1 = 1
  ∧ countOcc hdr_response (generate_structured_report okEngine (("quake").data)
      sampleDate).1 = 1
  ∧ countOcc hdr_aftermath (generate_structured_report okEngine (("quake").data)
      sampleDate).1 = 1
  ∧ containsInOrder [hdr_title, hdr_intro, hdr_details, hdr_impact, hdr_response,
      hdr_aftermath] (generate_structured_report okEngine (("quake").data) sampleDate).1 :=
  C4_structured_report_headers okEngine (("quake").data) sampleDate
    okEngine_starFree (by decide)
